import Mathlib

/-!
Shallow embedding of the conversation-storage backend
(`src/backend/src/backend/main.py` and `src/backend/src/backend/models.py`).

Timestamps (`datetime.now()`) are modelled as natural numbers supplied to each
operation; the relational tables are lists kept in insertion (rowid) order;
SQL `ORDER BY created_at` is modelled as a stable merge sort on that list;
primary-key assignment is modelled by per-table counters.  The LLM adapter
`generate_llm_response` lives in `llm.py`, which is an opaque external
dependency here: it is a parameter of type
`List RoleContent → Except String String`, where `Except.error` stands for
the Python call raising any `Exception`.  `session.delete(conversation)`
follows SQLAlchemy's default relationship semantics for `models.py`
(no delete cascade configured, nullable foreign key): deleting a parent
nullifies the foreign key of its children rather than deleting their rows.
-/

namespace Backend

/-- `Conversation` table row (`models.py`): store-assigned integer id,
optional title, creation timestamp. -/
structure Conversation where
  id : Nat
  title : Option String := none
  created_at : Nat
deriving Repr, DecidableEq

/-- The request body of `POST /conversations/` is parsed into the
`Conversation` model itself, whose `id` and `created_at` fields are optional
and defaulted (`Field(default=None)`, `Field(default_factory=datetime.now)`);
a client may therefore supply any of them. -/
structure ConversationBody where
  id : Option Nat := none
  title : Option String := none
  created_at : Option Nat := none
deriving Repr, DecidableEq

/-- `Message` table row (`models.py`): nullable foreign key
`conversation_id` with default `None`, content, role, creation timestamp. -/
structure Message where
  id : Nat
  conversation_id : Option Nat := none
  content : String
  role : String
  created_at : Nat
deriving Repr, DecidableEq

/-- `MessageCreate` request schema (`models.py`): role and content only. -/
structure MessageCreate where
  role : String
  content : String
deriving Repr, DecidableEq

/-- The minimal role/content pair handed to the LLM
(`{"role": m.role, "content": m.content}` in `create_message`). -/
structure RoleContent where
  role : String
  content : String
deriving Repr, DecidableEq

/-- `ConversationRead` response schema (`models.py`): the conversation
fields plus its nested messages. -/
structure ConversationRead where
  id : Nat
  title : Option String
  created_at : Nat
  messages : List Message
deriving Repr, DecidableEq

/-- The relational store: the two tables in insertion (rowid) order, plus
the primary-key counters the store uses to assign fresh ids. -/
structure Store where
  conversations : List Conversation
  messages : List Message
  next_conv_id : Nat
  next_msg_id : Nat
deriving Repr, DecidableEq

/-- `HTTPException`s raised by the handlers: only 404 with a detail string
occurs in this code. -/
inductive ApiError where
  | notFound (detail : String)
deriving Repr, DecidableEq

/-- A database error escaping a handler uncaught (surfaced by the server as
a generic 500): here the `IntegrityError` raised by `session.commit()` when
an insert violates the primary-key uniqueness of `models.py`. -/
inductive DbError where
  | integrityError
deriving Repr, DecidableEq

/-- `session.get(Conversation, conversation_id)`: primary-key lookup. -/
def getConversation (s : Store) (cid : Nat) : Option Conversation :=
  s.conversations.find? (fun c => c.id == cid)

/-- `POST /conversations/` (`create_conversation` in `main.py`):
`session.add(conversation); session.commit()`.  The parsed body is inserted
as-is; the store assigns an id only when the body carried none, and
`created_at` was already defaulted to the current time at parsing when the
body carried none.  `id` is `primary_key=True` in `models.py`, so the
commit raises `IntegrityError` — persisting nothing — when the row's id
already exists in the table. -/
def create_conversation (s : Store) (body : ConversationBody) (now : Nat) :
    Except DbError (Conversation × Store) :=
  let c : Conversation :=
    { id := body.id.getD s.next_conv_id
      title := body.title
      created_at := body.created_at.getD now }
  if s.conversations.any (fun x => x.id == c.id) then
    Except.error DbError.integrityError
  else
    Except.ok (c, { s with
      conversations := s.conversations ++ [c]
      next_conv_id := Nat.max s.next_conv_id (c.id + 1) })

/-- `GET /conversations/` (`read_conversations` in `main.py`):
`select(Conversation).offset(offset).limit(limit)`. -/
def read_conversations (s : Store) (offset limit : Nat) : List Conversation :=
  (s.conversations.drop offset).take limit

/-- `read_conversations` with its declared query-parameter defaults
`offset: int = 0, limit: int = 100`. -/
def read_conversations_default (s : Store) : List Conversation :=
  read_conversations s 0 100

/-- All messages of one conversation, in table (insertion) order:
`where(Message.conversation_id == conversation_id)`. -/
def messagesOf (s : Store) (cid : Nat) : List Message :=
  s.messages.filter (fun m => m.conversation_id == some cid)

/-- The comparison used by `order_by(Message.created_at)`. -/
def byCreatedAt (a b : Message) : Bool :=
  decide (a.created_at ≤ b.created_at)

/-- Everything SQL guarantees for the history query's
`order_by(Message.created_at)`, which has no secondary sort key: a
permitted result is any permutation of the selected rows that is
nondecreasing in `created_at`.  Rows with equal `created_at` may come back
in any relative order. -/
def sqlOrderByCreatedAt (rows result : List Message) : Prop :=
  result.Perm rows ∧
  result.Pairwise (fun m1 m2 => m1.created_at ≤ m2.created_at)

/-- The history query of `create_message`:
`select(Message).where(Message.conversation_id == cid).order_by(Message.created_at)`.
This executable model returns one result permitted by
`sqlOrderByCreatedAt`, the stable sort of the insertion-ordered rows; the
source query itself guarantees no particular order among rows with equal
`created_at`. -/
def orderedHistory (s : Store) (cid : Nat) : List Message :=
  (messagesOf s cid).mergeSort byCreatedAt

/-- `GET /conversations/{id}` (`read_conversation` in `main.py`): select the
conversation by id with `selectinload` of its messages; 404 when absent.
The relationship load returns the conversation's message rows in table
order. -/
def read_conversation (s : Store) (cid : Nat) : Except ApiError ConversationRead :=
  match s.conversations.find? (fun c => c.id == cid) with
  | none => Except.error (ApiError.notFound "Conversation not found")
  | some c =>
      Except.ok
        { id := c.id, title := c.title, created_at := c.created_at
          messages := messagesOf s cid }

/-- What SQLAlchemy does to one child row when its parent conversation is
deleted and the relationship configures no delete cascade: the nullable
foreign key is set to `None`. -/
def detachFrom (cid : Nat) (m : Message) : Message :=
  if m.conversation_id == some cid then { m with conversation_id := none } else m

/-- `DELETE /conversations/{id}` (`delete_conversation` in `main.py`):
404 when absent; otherwise `session.delete(conversation); session.commit()`
and the body `{ok: True}` (modelled as `true`).  With `models.py`'s
`Relationship` (no `cascade_delete`, nullable foreign key) the ORM nullifies
the messages' `conversation_id` instead of deleting the rows. -/
def delete_conversation (s : Store) (cid : Nat) :
    Except ApiError Bool × Store :=
  match getConversation s cid with
  | none => (Except.error (ApiError.notFound "Conversation not found"), s)
  | some _ =>
      (Except.ok true,
       { s with
         conversations := s.conversations.filter (fun c => c.id != cid)
         messages := s.messages.map (detachFrom cid) })

/-- The fallback reply used when the LLM call raises. -/
def fallbackText : String := "Sorry, I had an error generating a response."

/-- Projection of a stored message to the pair sent to the LLM. -/
def projectRC (m : Message) : RoleContent :=
  { role := m.role, content := m.content }

/-- Everything observable about one run of `create_message`: the HTTP
result, the store afterwards, and the list of histories the LLM adapter was
invoked with (one entry per invocation). -/
structure ExchangeOutcome where
  result : Except ApiError Message
  store : Store
  llmCalls : List (List RoleContent)
deriving Repr

/-- The `user_message` local of `create_message`: the incoming message
persisted with the caller's role and content, attached to the conversation,
with the store-assigned id and the current time `tUser`. -/
def user_message (s : Store) (cid : Nat) (message : MessageCreate)
    (tUser : Nat) : Message :=
  { id := s.next_msg_id, conversation_id := some cid
    content := message.content, role := message.role
    created_at := tUser }

/-- The store after step 2 of `create_message` (the user-message insert has
been committed). -/
def storeAfterUser (s : Store) (cid : Nat) (message : MessageCreate)
    (tUser : Nat) : Store :=
  { s with messages := s.messages ++ [user_message s cid message tUser]
           next_msg_id := s.next_msg_id + 1 }

/-- The `llm_messages` local of `create_message`: the full ordered history
of the conversation after the user-message insert, each row projected to a
role/content pair. -/
def llm_messages (s : Store) (cid : Nat) (message : MessageCreate)
    (tUser : Nat) : List RoleContent :=
  (orderedHistory (storeAfterUser s cid message tUser) cid).map projectRC

/-- The `assistant_text` local of `create_message`: the LLM reply, or
`fallbackText` when the call raised (the try/except in step 4). -/
def assistant_text (llm : List RoleContent → Except String String)
    (s : Store) (cid : Nat) (message : MessageCreate) (tUser : Nat) : String :=
  match llm (llm_messages s cid message tUser) with
  | Except.ok t => t
  | Except.error _ => fallbackText

/-- The `assistant_message` local of `create_message`: role fixed to
"assistant", content the (real or fallback) generated text, store-assigned
id, timestamp `tAsst`. -/
def assistant_message (llm : List RoleContent → Except String String)
    (s : Store) (cid : Nat) (message : MessageCreate) (tUser tAsst : Nat) :
    Message :=
  { id := (storeAfterUser s cid message tUser).next_msg_id
    conversation_id := some cid
    content := assistant_text llm s cid message tUser
    role := "assistant"
    created_at := tAsst }

/-- The store after step 5 of `create_message` (the assistant-message
insert has been committed). -/
def storeAfterAssistant (llm : List RoleContent → Except String String)
    (s : Store) (cid : Nat) (message : MessageCreate) (tUser tAsst : Nat) :
    Store :=
  { storeAfterUser s cid message tUser with
    messages := (storeAfterUser s cid message tUser).messages ++
      [assistant_message llm s cid message tUser tAsst]
    next_msg_id := (storeAfterUser s cid message tUser).next_msg_id + 1 }

/-- `POST /conversations/{id}/messages/` (`create_message` in `main.py`):
resolve the conversation (404 when absent); persist the incoming message;
build the full ordered history; call the LLM once inside try/except,
substituting `fallbackText` when it raises; persist and return the
assistant message.  `tUser` and `tAsst` are the two `datetime.now()`
readings taken at the two inserts. -/
def create_message (llm : List RoleContent → Except String String)
    (s : Store) (cid : Nat) (message : MessageCreate) (tUser tAsst : Nat) :
    ExchangeOutcome :=
  match getConversation s cid with
  | none =>
      { result := Except.error (ApiError.notFound "Conversation not found")
        store := s, llmCalls := [] }
  | some _ =>
      { result := Except.ok (assistant_message llm s cid message tUser tAsst)
        store := storeAfterAssistant llm s cid message tUser tAsst
        llmCalls := [llm_messages s cid message tUser] }

/-- The message table is in chronological order: every message inserted
later carries a timestamp no smaller than every earlier one.  This holds on
every store reachable through the API because message rows are only ever
appended with `created_at = datetime.now()`. -/
def timeOrdered (s : Store) : Prop :=
  s.messages.Pairwise (fun a b => a.created_at ≤ b.created_at)

/-- All timestamps already in the store are at most `t` (the next
`datetime.now()` reading). -/
def timeBound (s : Store) (t : Nat) : Prop :=
  ∀ m ∈ s.messages, m.created_at ≤ t

/-- A store with one seeded conversation and no messages. -/
def s0 : Store :=
  { conversations := [{ id := 1, title := some "Onboarding", created_at := 0 }]
    messages := []
    next_conv_id := 2
    next_msg_id := 1 }

/-- A store with one conversation that owns one message. -/
def s5 : Store :=
  { conversations := [{ id := 1, title := none, created_at := 0 }]
    messages := [{ id := 1, conversation_id := some 1, content := "hello"
                   role := "user", created_at := 3 }]
    next_conv_id := 2
    next_msg_id := 2 }

/-- A store with three conversations, for pagination checks. -/
def s10 : Store :=
  { conversations :=
      [{ id := 1, title := none, created_at := 0 },
       { id := 2, title := none, created_at := 1 },
       { id := 3, title := none, created_at := 2 }]
    messages := []
    next_conv_id := 4
    next_msg_id := 1 }

/-! ### Supporting lemmas -/

theorem byCreatedAt_trans (a b c : Message) (hab : byCreatedAt a b = true)
    (hbc : byCreatedAt b c = true) : byCreatedAt a c = true := by
  simp only [byCreatedAt, decide_eq_true_eq] at *
  omega

theorem byCreatedAt_total (a b : Message) :
    (byCreatedAt a b || byCreatedAt b a) = true := by
  simp only [byCreatedAt, Bool.or_eq_true, decide_eq_true_eq]
  omega

theorem orderedHistory_perm (s : Store) (cid : Nat) :
    (orderedHistory s cid).Perm (messagesOf s cid) :=
  List.mergeSort_perm _ _

theorem orderedHistory_pairwise (s : Store) (cid : Nat) :
    (orderedHistory s cid).Pairwise
      (fun m1 m2 => m1.created_at ≤ m2.created_at) := by
  have h := List.sorted_mergeSort byCreatedAt_trans byCreatedAt_total
    (messagesOf s cid)
  exact h.imp (fun hab => by simpa [byCreatedAt] using hab)

theorem orderedHistory_of_timeOrdered (s : Store) (cid : Nat)
    (hs : timeOrdered s) : orderedHistory s cid = messagesOf s cid := by
  apply List.mergeSort_of_sorted
  have h : (messagesOf s cid).Pairwise
      (fun m1 m2 => m1.created_at ≤ m2.created_at) :=
    List.Pairwise.filter _ hs
  exact h.imp (fun hab => by simpa [byCreatedAt] using hab)

theorem messagesOf_storeAfterUser (s : Store) (cid : Nat)
    (message : MessageCreate) (tUser : Nat) :
    messagesOf (storeAfterUser s cid message tUser) cid =
      messagesOf s cid ++ [user_message s cid message tUser] := by
  simp [messagesOf, storeAfterUser, user_message, List.filter_append]

theorem storeAfterAssistant_messages
    (llm : List RoleContent → Except String String) (s : Store) (cid : Nat)
    (message : MessageCreate) (tUser tAsst : Nat) :
    (storeAfterAssistant llm s cid message tUser tAsst).messages =
      s.messages ++ [user_message s cid message tUser,
        assistant_message llm s cid message tUser tAsst] := by
  simp [storeAfterAssistant, storeAfterUser]

theorem messagesOf_storeAfterAssistant
    (llm : List RoleContent → Except String String) (s : Store) (cid : Nat)
    (message : MessageCreate) (tUser tAsst : Nat) :
    messagesOf (storeAfterAssistant llm s cid message tUser tAsst) cid =
      messagesOf s cid ++ [user_message s cid message tUser,
        assistant_message llm s cid message tUser tAsst] := by
  simp [messagesOf, storeAfterAssistant, storeAfterUser, user_message,
        assistant_message, List.filter_append]

theorem create_message_found
    (llm : List RoleContent → Except String String) (s : Store) (cid : Nat)
    (c : Conversation) (message : MessageCreate) (tUser tAsst : Nat)
    (hc : getConversation s cid = some c) :
    create_message llm s cid message tUser tAsst =
      { result := Except.ok (assistant_message llm s cid message tUser tAsst)
        store := storeAfterAssistant llm s cid message tUser tAsst
        llmCalls := [llm_messages s cid message tUser] } := by
  simp [create_message, hc]

theorem timeOrdered_storeAfterAssistant
    (llm : List RoleContent → Except String String) (s : Store) (cid : Nat)
    (message : MessageCreate) (tUser tAsst : Nat)
    (hs : timeOrdered s) (hb : timeBound s tUser) (ht : tUser ≤ tAsst) :
    timeOrdered (storeAfterAssistant llm s cid message tUser tAsst) := by
  unfold timeOrdered
  rw [storeAfterAssistant_messages]
  apply List.pairwise_append.mpr
  refine ⟨hs, ?_, ?_⟩
  · simp [user_message, assistant_message, ht]
  · intro x hx y hy
    have hxt := hb x hx
    simp only [List.mem_cons, List.mem_singleton, List.not_mem_nil,
      or_false] at hy
    rcases hy with rfl | rfl
    · simpa [user_message] using hxt
    · simp only [assistant_message]
      omega

/-! ### Claims -/

/-- C1: on an existing conversation, if the LLM invocation inside
`create_message` fails for any reason, the failure is not propagated: the
operation still returns an assistant message whose content is the fixed
fallback text "Sorry, I had an error generating a response.", that message
is persisted, and the previously written user message remains committed in
the store. -/
theorem create_message_llm_failure_is_absorbed
    (llm : List RoleContent → Except String String)
    (s : Store) (cid : Nat) (c : Conversation) (message : MessageCreate)
    (tUser tAsst : Nat)
    (hc : getConversation s cid = some c)
    (hfail : ∀ h, ∃ e, llm h = Except.error e) :
    ∃ a : Message,
      (create_message llm s cid message tUser tAsst).result = Except.ok a ∧
      a.role = "assistant" ∧
      a.content = fallbackText ∧
      (create_message llm s cid message tUser tAsst).store.messages =
        s.messages ++ [user_message s cid message tUser, a] := by
  obtain ⟨e, he⟩ := hfail (llm_messages s cid message tUser)
  refine ⟨assistant_message llm s cid message tUser tAsst, ?_, rfl, ?_, ?_⟩
  · rw [create_message_found llm s cid c message tUser tAsst hc]
  · simp [assistant_message, assistant_text, he]
  · rw [create_message_found llm s cid c message tUser tAsst hc]
    exact storeAfterAssistant_messages llm s cid message tUser tAsst

theorem create_message_llm_failure_is_absorbed_witness :
    ∃ a : Message,
      (create_message (fun _ => Except.error "boom") s0 1
        { role := "user", content := "hi" } 5 6).result = Except.ok a ∧
      a.role = "assistant" ∧
      a.content = fallbackText ∧
      (create_message (fun _ => Except.error "boom") s0 1
        { role := "user", content := "hi" } 5 6).store.messages =
        s0.messages ++
          [user_message s0 1 { role := "user", content := "hi" } 5, a] :=
  create_message_llm_failure_is_absorbed (fun _ => Except.error "boom") s0 1
    { id := 1, title := some "Onboarding", created_at := 0 }
    { role := "user", content := "hi" } 5 6 rfl (fun _ => ⟨"boom", rfl⟩)

/-- C2: `create_message` on a conversation id absent from the store reports
the 404 error "Conversation not found", writes zero messages, leaves the
store unchanged, and never invokes the model client. -/
theorem create_message_missing_conversation_404
    (llm : List RoleContent → Except String String)
    (s : Store) (cid : Nat) (message : MessageCreate) (tUser tAsst : Nat)
    (hc : getConversation s cid = none) :
    create_message llm s cid message tUser tAsst =
      { result := Except.error (ApiError.notFound "Conversation not found")
        store := s, llmCalls := [] } := by
  simp [create_message, hc]

theorem create_message_missing_conversation_404_witness :
    create_message (fun _ => Except.ok "Hi") s0 99
        { role := "user", content := "hi" } 5 6 =
      { result := Except.error (ApiError.notFound "Conversation not found")
        store := s0, llmCalls := [] } :=
  create_message_missing_conversation_404 (fun _ => Except.ok "Hi") s0 99
    { role := "user", content := "hi" } 5 6 rfl

/-- C3: on an existing conversation, one `create_message` call appends
exactly two messages to the store — first one with the caller-supplied role
and content, then one with role "assistant" — with
user.created_at ≤ assistant.created_at, and returns the assistant message
with its store-assigned id and its persistence timestamp. -/
theorem create_message_appends_exactly_two
    (llm : List RoleContent → Except String String)
    (s : Store) (cid : Nat) (c : Conversation) (message : MessageCreate)
    (tUser tAsst : Nat)
    (hc : getConversation s cid = some c) (ht : tUser ≤ tAsst) :
    ∃ u a : Message,
      (create_message llm s cid message tUser tAsst).store.messages =
        s.messages ++ [u, a] ∧
      u.role = message.role ∧ u.content = message.content ∧
      u.conversation_id = some cid ∧ u.created_at = tUser ∧
      a.role = "assistant" ∧ a.conversation_id = some cid ∧
      u.created_at ≤ a.created_at ∧
      (create_message llm s cid message tUser tAsst).result = Except.ok a ∧
      a.id = s.next_msg_id + 1 ∧ a.created_at = tAsst := by
  refine ⟨user_message s cid message tUser,
          assistant_message llm s cid message tUser tAsst,
          ?_, rfl, rfl, rfl, rfl, rfl, rfl, ht, ?_, rfl, rfl⟩
  · rw [create_message_found llm s cid c message tUser tAsst hc]
    exact storeAfterAssistant_messages llm s cid message tUser tAsst
  · rw [create_message_found llm s cid c message tUser tAsst hc]

theorem create_message_appends_exactly_two_witness :
    ∃ u a : Message,
      (create_message (fun _ => Except.ok "Hi") s0 1
        { role := "user", content := "hi" } 5 6).store.messages =
        s0.messages ++ [u, a] ∧
      u.role = "user" ∧ u.content = "hi" ∧
      u.conversation_id = some 1 ∧ u.created_at = 5 ∧
      a.role = "assistant" ∧ a.conversation_id = some 1 ∧
      u.created_at ≤ a.created_at ∧
      (create_message (fun _ => Except.ok "Hi") s0 1
        { role := "user", content := "hi" } 5 6).result = Except.ok a ∧
      a.id = s0.next_msg_id + 1 ∧ a.created_at = 6 :=
  create_message_appends_exactly_two (fun _ => Except.ok "Hi") s0 1
    { id := 1, title := some "Onboarding", created_at := 0 }
    { role := "user", content := "hi" } 5 6 rfl (by decide)

/-- C4: on an existing conversation, the history handed to the model client
is the full message list of that conversation — a permutation of every
stored message of the conversation including the just-written user message,
sorted by created_at ascending — projected to role/content pairs, and the
model client is invoked exactly once. -/
theorem create_message_full_history_single_call
    (llm : List RoleContent → Except String String)
    (s : Store) (cid : Nat) (c : Conversation) (message : MessageCreate)
    (tUser tAsst : Nat)
    (hc : getConversation s cid = some c) :
    ∃ hist : List Message,
      (create_message llm s cid message tUser tAsst).llmCalls =
        [hist.map projectRC] ∧
      (create_message llm s cid message tUser tAsst).llmCalls.length = 1 ∧
      hist.Perm (messagesOf s cid ++ [user_message s cid message tUser]) ∧
      hist.Pairwise (fun m1 m2 => m1.created_at ≤ m2.created_at) ∧
      user_message s cid message tUser ∈ hist := by
  refine ⟨orderedHistory (storeAfterUser s cid message tUser) cid,
          ?_, ?_, ?_, ?_, ?_⟩
  · rw [create_message_found llm s cid c message tUser tAsst hc]
    rfl
  · rw [create_message_found llm s cid c message tUser tAsst hc]
    rfl
  · rw [← messagesOf_storeAfterUser s cid message tUser]
    exact orderedHistory_perm _ _
  · exact orderedHistory_pairwise _ _
  · have hp := orderedHistory_perm (storeAfterUser s cid message tUser) cid
    rw [messagesOf_storeAfterUser s cid message tUser] at hp
    exact hp.mem_iff.mpr (by simp)

theorem create_message_full_history_single_call_witness :
    ∃ hist : List Message,
      (create_message (fun _ => Except.ok "Hi") s5 1
        { role := "user", content := "again" } 7 8).llmCalls =
        [hist.map projectRC] ∧
      (create_message (fun _ => Except.ok "Hi") s5 1
        { role := "user", content := "again" } 7 8).llmCalls.length = 1 ∧
      hist.Perm (messagesOf s5 1 ++
        [user_message s5 1 { role := "user", content := "again" } 7]) ∧
      hist.Pairwise (fun m1 m2 => m1.created_at ≤ m2.created_at) ∧
      user_message s5 1 { role := "user", content := "again" } 7 ∈ hist :=
  create_message_full_history_single_call (fun _ => Except.ok "Hi") s5 1
    { id := 1, title := none, created_at := 0 }
    { role := "user", content := "again" } 7 8 rfl

/-- C5 counterexample: deleting a conversation does NOT delete its message
rows.  In `s5`, message id 1 belongs to conversation 1; after
`delete_conversation s5 1` succeeds with `ok = true`, that row is still in
the message table — only its `conversation_id` has been set to `none`
(the `Relationship` in `models.py` configures no delete cascade, so the
ORM nullifies the nullable foreign key instead of deleting the row). -/
theorem delete_conversation_message_row_survives :
    s5.messages = [{ id := 1, conversation_id := some 1, content := "hello"
                     role := "user", created_at := 3 }] ∧
    (delete_conversation s5 1).1 = Except.ok true ∧
    (delete_conversation s5 1).2.messages =
      [{ id := 1, conversation_id := none, content := "hello"
         role := "user", created_at := 3 }] :=
  ⟨rfl, rfl, rfl⟩

/-- C5 (amended): deleting an existing conversation detaches all its
messages (their `conversation_id` is set to `none`) rather than deleting
their rows; a subsequent listing of that conversation's messages is
nonetheless empty and the conversation itself is gone; the endpoint returns
`ok = true` when the conversation existed and the 404 error "Conversation
not found" when absent, leaving the store unchanged in the 404 case. -/
theorem delete_conversation_detaches_messages (s : Store) (cid : Nat) :
    (∀ c, getConversation s cid = some c →
       (delete_conversation s cid).1 = Except.ok true ∧
       (delete_conversation s cid).2.messages =
         s.messages.map (detachFrom cid) ∧
       (delete_conversation s cid).2.messages.length = s.messages.length ∧
       messagesOf (delete_conversation s cid).2 cid = [] ∧
       getConversation (delete_conversation s cid).2 cid = none) ∧
    (getConversation s cid = none →
       delete_conversation s cid =
         (Except.error (ApiError.notFound "Conversation not found"), s)) := by
  constructor
  · intro c hc
    refine ⟨?_, ?_, ?_, ?_, ?_⟩
    · simp [delete_conversation, hc]
    · simp [delete_conversation, hc]
    · simp [delete_conversation, hc]
    · simp only [delete_conversation, hc, messagesOf]
      rw [List.filter_eq_nil_iff]
      intro m hm
      simp only [List.mem_map] at hm
      obtain ⟨m0, _, rfl⟩ := hm
      simp only [detachFrom]
      by_cases h : (m0.conversation_id == some cid) = true
      · simp [h]
      · simp [h]
    · have hr : (delete_conversation s cid).2.conversations =
          s.conversations.filter (fun x => x.id != cid) := by
        simp [delete_conversation, hc]
      simp only [getConversation, hr]
      rw [List.find?_eq_none]
      intro x hx
      have h2 := (List.mem_filter.mp hx).2
      simpa using h2
  · intro hc
    simp [delete_conversation, hc]

theorem delete_conversation_detaches_messages_witness :
    ((delete_conversation s5 1).1 = Except.ok true ∧
     (delete_conversation s5 1).2.messages = s5.messages.map (detachFrom 1) ∧
     (delete_conversation s5 1).2.messages.length = s5.messages.length ∧
     messagesOf (delete_conversation s5 1).2 1 = [] ∧
     getConversation (delete_conversation s5 1).2 1 = none) ∧
    delete_conversation s5 99 =
      (Except.error (ApiError.notFound "Conversation not found"), s5) :=
  ⟨(delete_conversation_detaches_messages s5 1).1
     { id := 1, title := none, created_at := 0 } rfl,
   (delete_conversation_detaches_messages s5 99).2 rfl⟩

/-- C6 (code bug): the claim requires ties in `created_at` to be broken by
insertion/id order, with the user row strictly before the assistant row of
the same exchange when their timestamps collide — but the code's history
query is `order_by(Message.created_at)` with no secondary key, so it does
not enforce any tie order.  Evaluated at a concrete colliding exchange on
`s5` (both `datetime.now()` readings equal to 7): the conversation's rows
after the exchange are the old row at time 3 followed by the user and
assistant rows both at time 7, and the reversed placing — assistant row
strictly before the user row — is also a result permitted by
`order_by(Message.created_at)` (`sqlOrderByCreatedAt`).  The
user-before-assistant tie order therefore is not a property the code
guarantees. -/
theorem order_by_ties_not_enforced :
    (create_message (fun _ => Except.ok "Hi") s5 1
        { role := "user", content := "again" } 7 7).store.messages =
      [{ id := 1, conversation_id := some 1, content := "hello"
         role := "user", created_at := 3 },
       { id := 2, conversation_id := some 1, content := "again"
         role := "user", created_at := 7 },
       { id := 3, conversation_id := some 1, content := "Hi"
         role := "assistant", created_at := 7 }] ∧
    sqlOrderByCreatedAt
      (messagesOf (create_message (fun _ => Except.ok "Hi") s5 1
        { role := "user", content := "again" } 7 7).store 1)
      [{ id := 1, conversation_id := some 1, content := "hello"
         role := "user", created_at := 3 },
       { id := 3, conversation_id := some 1, content := "Hi"
         role := "assistant", created_at := 7 },
       { id := 2, conversation_id := some 1, content := "again"
         role := "user", created_at := 7 }] := by
  refine ⟨rfl, ?_, ?_⟩
  · decide
  · decide

/-- C7: on a chronologically ordered store, `GET /conversations/{id}`
returns the conversation together with its nested messages in chronological
order when the conversation exists, and the 404 error "Conversation not
found" when it does not. -/
theorem read_conversation_ok_or_not_found (s : Store) (cid : Nat)
    (hs : timeOrdered s) :
    (∀ c, getConversation s cid = some c →
       read_conversation s cid =
         Except.ok { id := c.id, title := c.title, created_at := c.created_at
                     messages := messagesOf s cid } ∧
       (messagesOf s cid).Pairwise
         (fun m1 m2 => m1.created_at ≤ m2.created_at)) ∧
    (getConversation s cid = none →
       read_conversation s cid =
         Except.error (ApiError.notFound "Conversation not found")) := by
  constructor
  · intro c hc
    simp only [getConversation] at hc
    exact ⟨by simp [read_conversation, hc], List.Pairwise.filter _ hs⟩
  · intro hc
    simp only [getConversation] at hc
    simp [read_conversation, hc]

theorem read_conversation_ok_or_not_found_witness :
    (read_conversation s5 1 =
       Except.ok { id := 1, title := none, created_at := 0
                   messages := messagesOf s5 1 } ∧
     (messagesOf s5 1).Pairwise
       (fun m1 m2 => m1.created_at ≤ m2.created_at)) ∧
    read_conversation s5 2 =
      Except.error (ApiError.notFound "Conversation not found") :=
  ⟨(read_conversation_ok_or_not_found s5 1 (by simp [timeOrdered, s5])).1
     { id := 1, title := none, created_at := 0 } rfl,
   (read_conversation_ok_or_not_found s5 2 (by simp [timeOrdered, s5])).2 rfl⟩

/-- C8: the message schema allows `conversation_id` to be absent (nullable
foreign key defaulting to `none`), and no operation enforces that every
persisted message references an existing conversation: after deleting
conversation 1 of `s5`, the store still holds a message with
`conversation_id = none`, while the conversation it referenced no longer
exists. -/
theorem message_detached_representable :
    ({ id := 7, content := "x", role := "user", created_at := 0 :
        Message }).conversation_id = none ∧
    (∃ m ∈ (delete_conversation s5 1).2.messages,
       m.conversation_id = none) ∧
    getConversation (delete_conversation s5 1).2 1 = none := by
  refine ⟨rfl, ⟨{ id := 1, conversation_id := none, content := "hello"
                  role := "user", created_at := 3 }, ?_, rfl⟩, rfl⟩
  simp [delete_conversation, s5, detachFrom, getConversation]

/-- C9 counterexample: a body reusing the already-existing id 1 on `s0` is
NOT persisted verbatim (or at all): `id` is `primary_key=True`, so the
commit fails with `IntegrityError` and no row is written — refuting the
unconditional claim that a client-supplied id is persisted. -/
theorem create_conversation_duplicate_id_rejected :
    create_conversation s0
        { id := some 1, title := some "dup", created_at := some 4 } 9 =
      Except.error DbError.integrityError :=
  rfl

/-- C9 (amended): `create_conversation` persists the client-supplied body
verbatim provided a supplied id does not collide with an existing
conversation's id: a client-supplied id or created_at is used as-is, the
id is store-assigned only when the body carries none, and created_at
defaults to the current time only when not supplied; when the (supplied or
assigned) id already exists, the commit fails with `IntegrityError` and
nothing is persisted. -/
theorem create_conversation_verbatim_unless_conflict
    (s : Store) (body : ConversationBody) (now : Nat) :
    ((∀ x ∈ s.conversations, x.id ≠ body.id.getD s.next_conv_id) →
       ∃ c s2, create_conversation s body now = Except.ok (c, s2) ∧
         c.id = body.id.getD s.next_conv_id ∧
         c.created_at = body.created_at.getD now ∧
         c.title = body.title ∧
         s2.conversations = s.conversations ++ [c]) ∧
    ((∃ x ∈ s.conversations, x.id = body.id.getD s.next_conv_id) →
       create_conversation s body now = Except.error DbError.integrityError)
    := by
  constructor
  · intro hfresh
    have hany : s.conversations.any
        (fun x => x.id == body.id.getD s.next_conv_id) = false := by
      rw [List.any_eq_false]
      intro x hx
      simpa using hfresh x hx
    have heq : create_conversation s body now =
        Except.ok
          ({ id := body.id.getD s.next_conv_id, title := body.title
             created_at := body.created_at.getD now },
           { s with
             conversations := s.conversations ++
               [{ id := body.id.getD s.next_conv_id, title := body.title
                  created_at := body.created_at.getD now }]
             next_conv_id :=
               Nat.max s.next_conv_id (body.id.getD s.next_conv_id + 1) }) := by
      simp [create_conversation, hany]
    exact ⟨_, _, heq, rfl, rfl, rfl, rfl⟩
  · intro ⟨x, hx, hid⟩
    have hany : s.conversations.any
        (fun x => x.id == body.id.getD s.next_conv_id) = true :=
      List.any_eq_true.mpr ⟨x, hx, by simpa using hid⟩
    simp [create_conversation, hany]

theorem create_conversation_verbatim_unless_conflict_witness :
    (∃ c s2, create_conversation s0
        { id := some 5, title := some "t", created_at := some 9 } 11 =
          Except.ok (c, s2) ∧
        c.id = (some 5).getD s0.next_conv_id ∧
        c.created_at = (some 9).getD 11 ∧
        c.title = some "t" ∧
        s2.conversations = s0.conversations ++ [c]) ∧
    create_conversation s0
        { id := some 1, title := none, created_at := none } 11 =
      Except.error DbError.integrityError :=
  ⟨(create_conversation_verbatim_unless_conflict s0
      { id := some 5, title := some "t", created_at := some 9 } 11).1
      (by decide),
   (create_conversation_verbatim_unless_conflict s0
      { id := some 1, title := none, created_at := none } 11).2
      ⟨{ id := 1, title := some "Onboarding", created_at := 0 },
       by decide, rfl⟩⟩

/-- C10: `GET /conversations/` with no query parameters uses the declared
defaults offset 0 and limit 100, so it returns at most 100 conversations;
for any offset and limit the listing returns at most limit conversations
and its i-th element is the (offset + i)-th conversation of the store. -/
theorem read_conversations_pagination (s : Store) (offset limit : Nat) :
    (read_conversations_default s).length ≤ 100 ∧
    read_conversations_default s = read_conversations s 0 100 ∧
    (read_conversations s offset limit).length ≤ limit ∧
    ∀ i, i < (read_conversations s offset limit).length →
      (read_conversations s offset limit)[i]? =
        s.conversations[offset + i]? := by
  refine ⟨List.length_take_le _ _, rfl, List.length_take_le _ _, ?_⟩
  intro i hi
  have hlt : i < limit := Nat.lt_of_lt_of_le hi (List.length_take_le _ _)
  show (List.take limit (List.drop offset s.conversations))[i]? =
    s.conversations[offset + i]?
  rw [List.getElem?_take, if_pos hlt, List.getElem?_drop]

theorem read_conversations_pagination_witness :
    (read_conversations_default s10).length ≤ 100 ∧
    (read_conversations s10 1 1).length ≤ 1 ∧
    0 < (read_conversations s10 1 1).length ∧
    (read_conversations s10 1 1)[0]? = s10.conversations[1 + 0]? :=
  ⟨(read_conversations_pagination s10 1 1).1,
   (read_conversations_pagination s10 1 1).2.2.1,
   by decide,
   (read_conversations_pagination s10 1 1).2.2.2 0 (by decide)⟩

end Backend
